import Mathlib

/-!
Verification of the usage-credit ledger in `app.py` (tarot app).

The ledger stores three SQLite tables (`usage_daily`, `user_credits`,
`stripe_sessions`). We embed each table as an association list keyed by its
primary key, and each ledger function as a pure Lean function from state to
state. SQLite `INT` columns and Python `int` arguments are embedded as `Int`
(Python integers are unbounded). The ambient current time/date
(`today_key()`, `datetime.utcnow().isoformat()`) is passed as an explicit
`String` argument.
-/

/-- A table keyed by primary key `κ` with a payload `ν` per row. -/
abbrev Table (κ ν : Type) : Type := List (κ × ν)

/-- `SELECT payload FROM t WHERE key = k` (first matching row). -/
def findRow {κ ν : Type} [DecidableEq κ] (k : κ) : Table κ ν → Option ν
  | [] => none
  | (k', v) :: rest => if k = k' then some v else findRow k rest

/-- `INSERT ... VALUES (k, dflt) ON CONFLICT(k) DO UPDATE SET payload = f payload`. -/
def upsertRow {κ ν : Type} [DecidableEq κ] (k : κ) (f : ν → ν) (dflt : ν) :
    Table κ ν → Table κ ν
  | [] => [(k, dflt)]
  | (k', v) :: rest =>
    if k = k' then (k', f v) :: rest else (k', v) :: upsertRow k f dflt rest

/-- `UPDATE t SET payload = f payload WHERE key = k` (no row created when absent). -/
def updateRow {κ ν : Type} [DecidableEq κ] (k : κ) (f : ν → ν) :
    Table κ ν → Table κ ν
  | [] => []
  | (k', v) :: rest =>
    if k = k' then (k', f v) :: rest else (k', v) :: updateRow k f rest

/-- `INSERT OR IGNORE INTO t VALUES (k, v)`. -/
def insertOrIgnore {κ ν : Type} [DecidableEq κ] (k : κ) (v : ν) (t : Table κ ν) :
    Table κ ν :=
  if (findRow k t).isSome then t else (k, v) :: t

/-- `FREE_PER_DAY = 1` (app.py line 115): free readings per day, hard-coded. -/
def FREE_PER_DAY : Int := 1

/-- The durable state of `tarot.db`:
`usage_daily (uid, day) -> used`, `user_credits uid -> (deep_credits, updated_at)`,
`stripe_sessions session_id -> (uid, processed_at)`. -/
structure LedgerState where
  usage_daily : Table (String × String) Int
  user_credits : Table String (Int × String)
  stripe_sessions : Table String (String × String)
deriving DecidableEq

/-- The freshly initialized database (`db_init` creates empty tables). -/
def emptyLedger : LedgerState := ⟨[], [], []⟩

/-- `get_free_used(uid)`: `SELECT used FROM usage_daily WHERE uid=? AND day=?`
with `day = today_key()`, returning 0 when no row exists. The ambient current
day is the explicit `day` argument. -/
def get_free_used (s : LedgerState) (uid day : String) : Int :=
  match findRow (uid, day) s.usage_daily with
  | some v => v
  | none => 0

/-- `inc_free_used(uid, n)`: upsert
`INSERT INTO usage_daily(uid, day, used) VALUES(?,?,?) ON CONFLICT(uid, day)
DO UPDATE SET used = used + ?`. -/
def inc_free_used (s : LedgerState) (uid day : String) (n : Int) : LedgerState :=
  { s with usage_daily := upsertRow (uid, day) (fun v => v + n) n s.usage_daily }

/-- `can_use_free(uid)`: `get_free_used(uid) < FREE_PER_DAY`. -/
def can_use_free (s : LedgerState) (uid day : String) : Bool :=
  get_free_used s uid day < FREE_PER_DAY

/-- `get_deep_credits(uid)`: `SELECT deep_credits FROM user_credits WHERE uid=?`,
returning 0 when no row exists. -/
def get_deep_credits (s : LedgerState) (uid : String) : Int :=
  match findRow uid s.user_credits with
  | some v => v.1
  | none => 0

/-- `add_deep_credits(uid, n)`: upsert
`INSERT INTO user_credits(uid, deep_credits, updated_at) VALUES(?,?,?)
ON CONFLICT(uid) DO UPDATE SET deep_credits = deep_credits + ?, updated_at=?`.
The ambient `datetime.utcnow().isoformat()` is the explicit `now` argument. -/
def add_deep_credits (s : LedgerState) (uid now : String) (n : Int) : LedgerState :=
  { s with user_credits := upsertRow uid (fun v => (v.1 + n, now)) (n, now) s.user_credits }

/-- `consume_deep_credit(uid, n)`: read current credits (0 when no row); if
`cur_credits < n` return `False` with no change; otherwise run
`UPDATE user_credits SET deep_credits = deep_credits - ?, updated_at=? WHERE uid=?`
(which touches no row when none exists) and return `True`. -/
def consume_deep_credit (s : LedgerState) (uid now : String) (n : Int) :
    Bool × LedgerState :=
  let cur := get_deep_credits s uid
  if cur < n then (false, s)
  else (true, { s with user_credits := updateRow uid (fun v => (v.1 - n, now)) s.user_credits })

/-- `stripe_session_already_processed(session_id)`:
`SELECT 1 FROM stripe_sessions WHERE session_id=?` turned into a boolean. -/
def stripe_session_already_processed (s : LedgerState) (session_id : String) : Bool :=
  (findRow session_id s.stripe_sessions).isSome

/-- `mark_stripe_session_processed(session_id, uid)`:
`INSERT OR IGNORE INTO stripe_sessions(session_id, uid, processed_at) VALUES(?,?,?)`. -/
def mark_stripe_session_processed (s : LedgerState) (session_id uid now : String) :
    LedgerState :=
  { s with stripe_sessions := insertOrIgnore session_id (uid, now) s.stripe_sessions }

/-- The fields of a retrieved Stripe checkout session that
`verify_and_grant_from_session` inspects. `none` embeds a missing attribute /
Python `None`. -/
structure StripeSession where
  payment_status : Option String
  status : Option String
  client_reference_id : Option String
  metadata_uid : Option String
deriving DecidableEq

/-- Python truthiness of an optional string: `None` and `""` are falsy. -/
def truthy : Option String → Bool
  | none => false
  | some str => if str = "" then false else true

/-- Python `a or b` on optional strings (falsy `a` falls through to `b`),
embedding `getattr(sess, "client_reference_id", None) or sess.metadata.get("uid")`. -/
def pyOrStr (a b : Option String) : Option String :=
  if truthy a then a else b

/-- The distinct user-facing messages `verify_and_grant_from_session` returns
(the Chinese message strings, abstracted to tags). -/
inductive VerifyMsg
  | missingSessionId
  | alreadyProcessed
  | retrieveFailed (e : String)
  | notPaid (status payStatus : Option String)
  | uidMismatch
  | granted
deriving DecidableEq

/-- `verify_and_grant_from_session(uid, session_id)`. The external call
`stripe.checkout.Session.retrieve(session_id)` is the explicit `retrieve`
argument (`Except.error e` embeds the raised exception). Returns the
`(ok, message)` pair together with the resulting database state:
1. empty `session_id` fails; 2. an already-processed session succeeds with no
change; 3. a failed retrieval fails; 4. `payment_status != "paid"` fails;
5. a non-empty session owner uid differing from the caller fails;
otherwise grant 1 deep credit and mark the session processed. -/
def verify_and_grant_from_session (s : LedgerState) (uid session_id now : String)
    (retrieve : Except String StripeSession) : (Bool × VerifyMsg) × LedgerState :=
  if session_id = "" then ((false, .missingSessionId), s)
  else if stripe_session_already_processed s session_id then
    ((true, .alreadyProcessed), s)
  else
    match retrieve with
    | .error e => ((false, .retrieveFailed e), s)
    | .ok sess =>
      if sess.payment_status ≠ some "paid" then
        ((false, .notPaid sess.status sess.payment_status), s)
      else
        let sess_uid := pyOrStr sess.client_reference_id sess.metadata_uid
        if truthy sess_uid = true ∧ sess_uid ≠ some uid then
          ((false, .uidMismatch), s)
        else
          let s₁ := add_deep_credits s uid now 1
          ((true, .granted), mark_stripe_session_processed s₁ session_id uid now)

/-- One ledger operation touching credit balances, for sequencing
(`grant_credits` / `consume_credits` / `apply_verified_payment` of the spec). -/
inductive LedgerOp
  | grant (uid now : String) (n : Int)
  | consume (uid now : String) (n : Int)
  | verify (uid session_id now : String) (retrieve : Except String StripeSession)

/-- Apply one `LedgerOp` to the state (discarding returned booleans/messages). -/
def applyOp (s : LedgerState) : LedgerOp → LedgerState
  | .grant u now n => add_deep_credits s u now n
  | .consume u now n => (consume_deep_credit s u now n).2
  | .verify u sid now r => (verify_and_grant_from_session s u sid now r).2

/-- Run a sequence of ledger operations left to right. -/
def runOps (s : LedgerState) (ops : List LedgerOp) : LedgerState :=
  ops.foldl applyOp s

/-- `op` is not a credit grant with a non-positive amount. -/
def grantPositive : LedgerOp → Prop
  | .grant _ _ n => 0 < n
  | _ => True

/-! ### Table lemmas -/

theorem findRow_upsertRow_self {κ ν : Type} [DecidableEq κ] (k : κ) (f : ν → ν)
    (dflt : ν) (t : Table κ ν) :
    findRow k (upsertRow k f dflt t) = some ((findRow k t).elim dflt f) := by
  induction t with
  | nil => simp [findRow, upsertRow]
  | cons hd tl ih =>
    obtain ⟨k', v⟩ := hd
    by_cases hk : k = k' <;> simp [findRow, upsertRow, hk, ih]

theorem findRow_upsertRow_ne {κ ν : Type} [DecidableEq κ] {k k' : κ} (f : ν → ν)
    (dflt : ν) (t : Table κ ν) (hne : k' ≠ k) :
    findRow k' (upsertRow k f dflt t) = findRow k' t := by
  induction t with
  | nil => simp [findRow, upsertRow, hne]
  | cons hd tl ih =>
    obtain ⟨k'', v⟩ := hd
    by_cases hk : k = k''
    · subst hk; simp [findRow, upsertRow, hne]
    · simp [findRow, upsertRow, hk, ih]

theorem findRow_updateRow_self {κ ν : Type} [DecidableEq κ] (k : κ) (f : ν → ν)
    (t : Table κ ν) :
    findRow k (updateRow k f t) = (findRow k t).map f := by
  induction t with
  | nil => simp [findRow, updateRow]
  | cons hd tl ih =>
    obtain ⟨k', v⟩ := hd
    by_cases hk : k = k' <;> simp [findRow, updateRow, hk, ih]

theorem findRow_updateRow_ne {κ ν : Type} [DecidableEq κ] {k k' : κ} (f : ν → ν)
    (t : Table κ ν) (hne : k' ≠ k) :
    findRow k' (updateRow k f t) = findRow k' t := by
  induction t with
  | nil => simp [findRow, updateRow]
  | cons hd tl ih =>
    obtain ⟨k'', v⟩ := hd
    by_cases hk : k = k''
    · subst hk; simp [findRow, updateRow, hne]
    · simp [findRow, updateRow, hk, ih]

theorem findRow_insertOrIgnore_self {κ ν : Type} [DecidableEq κ] (k : κ) (v : ν)
    (t : Table κ ν) :
    findRow k (insertOrIgnore k v t) = some ((findRow k t).getD v) := by
  unfold insertOrIgnore
  cases h : findRow k t <;> simp [h, findRow]

theorem findRow_insertOrIgnore_ne {κ ν : Type} [DecidableEq κ] {k k' : κ} (v : ν)
    (t : Table κ ν) (hne : k' ≠ k) :
    findRow k' (insertOrIgnore k v t) = findRow k' t := by
  unfold insertOrIgnore
  cases h : findRow k t <;> simp [h, findRow, hne]

theorem insertOrIgnore_of_some {κ ν : Type} [DecidableEq κ] {k : κ} {v' : ν} (v : ν)
    {t : Table κ ν} (h : findRow k t = some v') :
    insertOrIgnore k v t = t := by
  unfold insertOrIgnore
  simp [h]

/-! ### Per-operation state lemmas -/

theorem get_free_used_inc_self (s : LedgerState) (u d : String) (n : Int) :
    get_free_used (inc_free_used s u d n) u d = get_free_used s u d + n := by
  unfold get_free_used inc_free_used
  rw [findRow_upsertRow_self]
  cases h : findRow (u, d) s.usage_daily <;> simp [h]

theorem get_free_used_inc_ne (s : LedgerState) {u d u' d' : String} (n : Int)
    (hne : (u', d') ≠ (u, d)) :
    get_free_used (inc_free_used s u d n) u' d' = get_free_used s u' d' := by
  unfold get_free_used inc_free_used
  rw [findRow_upsertRow_ne _ _ _ hne]

theorem get_deep_credits_add_self (s : LedgerState) (u now : String) (n : Int) :
    get_deep_credits (add_deep_credits s u now n) u = get_deep_credits s u + n := by
  unfold get_deep_credits add_deep_credits
  rw [findRow_upsertRow_self]
  cases h : findRow u s.user_credits <;> simp [h]

theorem get_deep_credits_add_ne (s : LedgerState) {u u' : String} (now : String)
    (n : Int) (hne : u' ≠ u) :
    get_deep_credits (add_deep_credits s u now n) u' = get_deep_credits s u' := by
  unfold get_deep_credits add_deep_credits
  rw [findRow_upsertRow_ne _ _ _ hne]

theorem findRow_add_self (s : LedgerState) (u now : String) (n : Int) :
    findRow u (add_deep_credits s u now n).user_credits
      = some (get_deep_credits s u + n, now) := by
  unfold add_deep_credits get_deep_credits
  rw [findRow_upsertRow_self]
  cases h : findRow u s.user_credits <;> simp [h]

theorem get_deep_credits_consume_ne (s : LedgerState) {u u' : String} (now : String)
    (n : Int) (hne : u' ≠ u) :
    get_deep_credits (consume_deep_credit s u now n).2 u' = get_deep_credits s u' := by
  unfold consume_deep_credit
  by_cases hlt : get_deep_credits s u < n
  · simp [hlt]
  · simp only [hlt, if_false]
    unfold get_deep_credits
    rw [findRow_updateRow_ne _ _ hne]

theorem get_free_used_foldl_inc (u d : String) (ks : List Int) :
    ∀ s : LedgerState,
      get_free_used (ks.foldl (fun t k => inc_free_used t u d k) s) u d
        = get_free_used s u d + ks.sum := by
  induction ks with
  | nil => intro s; simp
  | cons k rest ih =>
    intro s
    simp only [List.foldl_cons, List.sum_cons]
    rw [ih, get_free_used_inc_self]
    ring

/-- Claim C4: `get_free_used(u, d)` returns 0 when no row exists (and is a
pure read by construction); after `m` calls `inc_free_used(u, d, k_i)` it
equals the sum of the `k_i`; each `inc_free_used` is an upsert that creates
the row with `used = k` when absent (the current count being 0 then) and
otherwise adds `k` to it. -/
theorem get_free_used_starts_zero_and_sums (s t : LedgerState) (u d : String)
    (ks : List Int) (k : Int) (h0 : findRow (u, d) s.usage_daily = none) :
    get_free_used s u d = 0
    ∧ get_free_used (ks.foldl (fun t' k' => inc_free_used t' u d k') s) u d = ks.sum
    ∧ findRow (u, d) (inc_free_used t u d k).usage_daily
        = some (get_free_used t u d + k) := by
  have h1 : get_free_used s u d = 0 := by
    unfold get_free_used
    rw [h0]
  refine ⟨h1, ?_, ?_⟩
  · rw [get_free_used_foldl_inc, h1, zero_add]
  · unfold inc_free_used get_free_used
    show findRow (u, d) (upsertRow (u, d) (fun v => v + k) k t.usage_daily)
      = some _
    rw [findRow_upsertRow_self]
    cases h : findRow (u, d) t.usage_daily <;> simp [h]

/-- Witness for C4 at a fresh store and the increments `[1, 2]`. -/
theorem get_free_used_starts_zero_and_sums_witness :
    get_free_used emptyLedger "u1" "2024-01-01" = 0
    ∧ get_free_used (([1, 2] : List Int).foldl
        (fun t' k' => inc_free_used t' "u1" "2024-01-01" k') emptyLedger)
        "u1" "2024-01-01" = ([1, 2] : List Int).sum
    ∧ findRow ("u1", "2024-01-01")
        (inc_free_used emptyLedger "u1" "2024-01-01" 5).usage_daily
        = some (get_free_used emptyLedger "u1" "2024-01-01" + 5) :=
  get_free_used_starts_zero_and_sums emptyLedger emptyLedger "u1" "2024-01-01"
    [1, 2] 5 (by decide)

/-- Claim C5: `get_deep_credits(u)` returns 0 when no row exists;
`add_deep_credits(u, n)` creates the row with balance `n` when absent (the
balance being 0 then) and otherwise adds `n`, always storing the fresh
`updated_at`; granting 3 then 2 on a fresh store yields balance 5. -/
theorem get_deep_credits_zero_and_grant_upserts (s : LedgerState)
    (u now t1 t2 : String) (n : Int) :
    (findRow u s.user_credits = none → get_deep_credits s u = 0)
    ∧ get_deep_credits (add_deep_credits s u now n) u = get_deep_credits s u + n
    ∧ findRow u (add_deep_credits s u now n).user_credits
        = some (get_deep_credits s u + n, now)
    ∧ get_deep_credits
        (add_deep_credits (add_deep_credits emptyLedger u t1 3) u t2 2) u = 5 := by
  refine ⟨?_, get_deep_credits_add_self s u now n, findRow_add_self s u now n, ?_⟩
  · intro h
    unfold get_deep_credits
    rw [h]
  · rw [get_deep_credits_add_self, get_deep_credits_add_self]
    show (0 : Int) + 3 + 2 = 5
    norm_num

/-- Witness for C5 at a fresh store, user `"u1"`, grant of 4. -/
theorem get_deep_credits_zero_and_grant_upserts_witness :
    get_deep_credits emptyLedger "u1" = 0
    ∧ get_deep_credits (add_deep_credits emptyLedger "u1" "t0" 4) "u1"
        = get_deep_credits emptyLedger "u1" + 4
    ∧ findRow "u1" (add_deep_credits emptyLedger "u1" "t0" 4).user_credits
        = some (get_deep_credits emptyLedger "u1" + 4, "t0")
    ∧ get_deep_credits
        (add_deep_credits (add_deep_credits emptyLedger "u1" "t1" 3) "u1" "t2" 2)
        "u1" = 5 :=
  ⟨(get_deep_credits_zero_and_grant_upserts emptyLedger "u1" "t0" "t1" "t2" 4).1
      (by decide),
   (get_deep_credits_zero_and_grant_upserts emptyLedger "u1" "t0" "t1" "t2" 4).2.1,
   (get_deep_credits_zero_and_grant_upserts emptyLedger "u1" "t0" "t1" "t2" 4).2.2.1,
   (get_deep_credits_zero_and_grant_upserts emptyLedger "u1" "t0" "t1" "t2" 4).2.2.2⟩

/-- Claim C6: `mark_stripe_session_processed` inserts the record when the
reference is new, and is a complete no-op (state strictly equal, so the stored
uid and processed_at are never overwritten) when the reference already exists;
it is a total function, so it never raises. -/
theorem mark_stripe_session_processed_insert_or_ignore (s : LedgerState)
    (sid u now : String) (v : String × String) :
    (findRow sid s.stripe_sessions = none →
       findRow sid (mark_stripe_session_processed s sid u now).stripe_sessions
         = some (u, now))
    ∧ (findRow sid s.stripe_sessions = some v →
       mark_stripe_session_processed s sid u now = s) := by
  constructor
  · intro h
    show findRow sid (insertOrIgnore sid (u, now) s.stripe_sessions) = some (u, now)
    rw [findRow_insertOrIgnore_self, h]
    rfl
  · intro h
    unfold mark_stripe_session_processed
    rw [insertOrIgnore_of_some (u, now) h]

/-- Witness for C6: insert into a fresh store, then re-mark the same
reference with a different uid and timestamp: the state is unchanged. -/
theorem mark_stripe_session_processed_insert_or_ignore_witness :
    findRow "cs_1"
      (mark_stripe_session_processed emptyLedger "cs_1" "u1" "t1").stripe_sessions
      = some ("u1", "t1")
    ∧ mark_stripe_session_processed
        (mark_stripe_session_processed emptyLedger "cs_1" "u1" "t1") "cs_1" "u2" "t2"
      = mark_stripe_session_processed emptyLedger "cs_1" "u1" "t1" :=
  ⟨(mark_stripe_session_processed_insert_or_ignore emptyLedger "cs_1" "u1" "t1"
      ("u1", "t1")).1 (by decide),
   (mark_stripe_session_processed_insert_or_ignore
      (mark_stripe_session_processed emptyLedger "cs_1" "u1" "t1") "cs_1" "u2" "t2"
      ("u1", "t1")).2 (by decide)⟩

theorem get_deep_credits_eq (s : LedgerState) (u : String) :
    get_deep_credits s u = (findRow u s.user_credits).elim 0 Prod.fst := by
  unfold get_deep_credits
  cases h : findRow u s.user_credits <;> simp [h]

theorem get_deep_credits_consume_success (s : LedgerState) (u now : String)
    (n : Int) (hge : ¬ get_deep_credits s u < n) :
    get_deep_credits (consume_deep_credit s u now n).2 u
      = (findRow u s.user_credits).elim 0 (fun v => v.1 - n) := by
  show get_deep_credits
      (if get_deep_credits s u < n then (false, s)
       else (true,
        { s with user_credits := updateRow u (fun v => (v.1 - n, now)) s.user_credits })).2 u
    = (findRow u s.user_credits).elim 0 (fun v => v.1 - n)
  rw [if_neg hge, get_deep_credits_eq]
  show (findRow u (updateRow u (fun v => (v.1 - n, now)) s.user_credits)).elim 0 Prod.fst
    = (findRow u s.user_credits).elim 0 (fun v => v.1 - n)
  rw [findRow_updateRow_self]
  cases hf : findRow u s.user_credits <;> simp

theorem consume_nonneg (s : LedgerState) (u now : String) (n : Int)
    (h : 0 ≤ get_deep_credits s u) :
    0 ≤ get_deep_credits (consume_deep_credit s u now n).2 u := by
  by_cases hlt : get_deep_credits s u < n
  · show 0 ≤ get_deep_credits
      (if get_deep_credits s u < n then (false, s)
       else (true,
        { s with user_credits := updateRow u (fun v => (v.1 - n, now)) s.user_credits })).2 u
    rw [if_pos hlt]
    exact h
  · rw [get_deep_credits_consume_success s u now n hlt]
    rw [get_deep_credits_eq] at h hlt
    cases hf : findRow u s.user_credits with
    | none => simp
    | some v =>
      rw [hf] at hlt
      simp only [Option.elim_some] at hlt ⊢
      omega

/-- Claim C2, counterexample: on a fresh store (balance 0) with `n = -1`, the
balance `0` is `>= n`, `consume_deep_credit` returns `True`, but the stored
balance is NOT decremented by `n` (it stays 0 instead of becoming 1, because
the SQL `UPDATE` matches no row), so the claim fails for negative `n`. -/
theorem consume_deep_credit_negative_n_cex :
    (-1 : Int) ≤ get_deep_credits emptyLedger "u1"
    ∧ (consume_deep_credit emptyLedger "u1" "t1" (-1)).1 = true
    ∧ get_deep_credits (consume_deep_credit emptyLedger "u1" "t1" (-1)).2 "u1"
        ≠ get_deep_credits emptyLedger "u1" - (-1) := by
  decide

/-- Claim C2 (amended): for every `n >= 0`, `consume_deep_credit(u, n)` returns
`True` and decrements the stored balance by exactly `n` when the balance is
`>= n`, and returns `False` leaving the state strictly unchanged when the
balance is `< n`; moreover a nonnegative balance stays nonnegative. -/
theorem consume_deep_credit_spec (s : LedgerState) (u now : String) (n : Int)
    (hn : 0 ≤ n) :
    (n ≤ get_deep_credits s u →
       (consume_deep_credit s u now n).1 = true
       ∧ get_deep_credits (consume_deep_credit s u now n).2 u
           = get_deep_credits s u - n)
    ∧ (get_deep_credits s u < n →
       (consume_deep_credit s u now n).1 = false
       ∧ (consume_deep_credit s u now n).2 = s)
    ∧ (0 ≤ get_deep_credits s u →
       0 ≤ get_deep_credits (consume_deep_credit s u now n).2 u) := by
  refine ⟨?_, ?_, consume_nonneg s u now n⟩
  · intro hge
    have hlt : ¬ get_deep_credits s u < n := by omega
    constructor
    · show (if get_deep_credits s u < n then (false, s)
         else (true,
          { s with
            user_credits := updateRow u (fun v => (v.1 - n, now)) s.user_credits })).1
        = true
      rw [if_neg hlt]
    · rw [get_deep_credits_consume_success s u now n hlt, get_deep_credits_eq]
      rw [get_deep_credits_eq] at hge
      cases hf : findRow u s.user_credits with
      | none =>
        rw [hf] at hge
        simp only [Option.elim_none] at hge ⊢
        omega
      | some v => simp
  · intro hlt
    constructor
    · show (if get_deep_credits s u < n then (false, s)
         else (true,
          { s with
            user_credits := updateRow u (fun v => (v.1 - n, now)) s.user_credits })).1
        = false
      rw [if_pos hlt]
    · show (if get_deep_credits s u < n then (false, s)
         else (true,
          { s with
            user_credits := updateRow u (fun v => (v.1 - n, now)) s.user_credits })).2
        = s
      rw [if_pos hlt]

/-- Witness for the amended C2: balance 5, consume 2 succeeds leaving 3;
consume 10 on balance 3 fails and leaves the state unchanged; the balance
stays nonnegative. -/
theorem consume_deep_credit_spec_witness :
    ((consume_deep_credit (add_deep_credits emptyLedger "u1" "t0" 5) "u1" "t1" 2).1
        = true
     ∧ get_deep_credits
         (consume_deep_credit (add_deep_credits emptyLedger "u1" "t0" 5) "u1" "t1" 2).2
         "u1"
       = get_deep_credits (add_deep_credits emptyLedger "u1" "t0" 5) "u1" - 2)
    ∧ ((consume_deep_credit
          (consume_deep_credit (add_deep_credits emptyLedger "u1" "t0" 5) "u1" "t1" 2).2
          "u1" "t2" 10).1 = false
       ∧ (consume_deep_credit
          (consume_deep_credit (add_deep_credits emptyLedger "u1" "t0" 5) "u1" "t1" 2).2
          "u1" "t2" 10).2
         = (consume_deep_credit (add_deep_credits emptyLedger "u1" "t0" 5) "u1" "t1" 2).2)
    ∧ 0 ≤ get_deep_credits
        (consume_deep_credit (add_deep_credits emptyLedger "u1" "t0" 5) "u1" "t1" 2).2
        "u1" :=
  ⟨(consume_deep_credit_spec (add_deep_credits emptyLedger "u1" "t0" 5) "u1" "t1" 2
      (by decide)).1 (by decide),
   (consume_deep_credit_spec
      (consume_deep_credit (add_deep_credits emptyLedger "u1" "t0" 5) "u1" "t1" 2).2
      "u1" "t2" 10 (by decide)).2.1 (by decide),
   (consume_deep_credit_spec (add_deep_credits emptyLedger "u1" "t0" 5) "u1" "t1" 2
      (by decide)).2.2 (by decide)⟩

/-- Claim C3, counterexample: `can_use_free` takes no `daily_limit` argument;
the quota is the hard-coded `FREE_PER_DAY = 1`. After one increment the count
is 1, which is below a caller-chosen limit of 2, yet `can_use_free` is already
`false` — so `can_use_free` is not equivalent to
`get_free_used < daily_limit` for a caller-supplied `daily_limit`. -/
theorem can_use_free_hardcoded_cex :
    FREE_PER_DAY = 1
    ∧ can_use_free (inc_free_used emptyLedger "u1" "2024-01-01" 1) "u1" "2024-01-01"
        = false
    ∧ get_free_used (inc_free_used emptyLedger "u1" "2024-01-01" 1) "u1" "2024-01-01"
        < 2 := by
  decide

/-- Claim C3 (amended): `can_use_free(u)` is a pure read equivalent to
`get_free_used(u, today) < FREE_PER_DAY`, where `FREE_PER_DAY` is the
hard-coded module constant 1 (there is no caller-supplied limit); with that
limit of 1, from a count of 0 a single `inc_free_used(u, 1)` flips it from
`true` to `false`. -/
theorem can_use_free_spec (s : LedgerState) (u d : String) :
    (can_use_free s u d = true ↔ get_free_used s u d < FREE_PER_DAY)
    ∧ FREE_PER_DAY = 1
    ∧ (get_free_used s u d = 0 →
       can_use_free s u d = true
       ∧ can_use_free (inc_free_used s u d 1) u d = false) := by
  refine ⟨by simp [can_use_free], rfl, ?_⟩
  intro h0
  constructor
  · simp [can_use_free, h0, FREE_PER_DAY]
  · simp [can_use_free, get_free_used_inc_self, h0, FREE_PER_DAY]

/-- Witness for the amended C3 at a fresh store: `can_use_free` is `true`,
and after one increment it is `false`. -/
theorem can_use_free_spec_witness :
    (can_use_free emptyLedger "u1" "2024-01-01" = true
      ↔ get_free_used emptyLedger "u1" "2024-01-01" < FREE_PER_DAY)
    ∧ can_use_free emptyLedger "u1" "2024-01-01" = true
    ∧ can_use_free (inc_free_used emptyLedger "u1" "2024-01-01" 1) "u1" "2024-01-01"
        = false :=
  ⟨(can_use_free_spec emptyLedger "u1" "2024-01-01").1,
   ((can_use_free_spec emptyLedger "u1" "2024-01-01").2.2 (by decide)).1,
   ((can_use_free_spec emptyLedger "u1" "2024-01-01").2.2 (by decide)).2⟩

theorem processed_after_mark (s : LedgerState) (r u now : String) :
    stripe_session_already_processed (mark_stripe_session_processed s r u now) r
      = true := by
  show (findRow r (insertOrIgnore r (u, now) s.stripe_sessions)).isSome = true
  rw [findRow_insertOrIgnore_self]
  rfl

theorem verify_already_processed (s : LedgerState) (u r now : String)
    (retr : Except String StripeSession) (h1 : r ≠ "")
    (h2 : stripe_session_already_processed s r = true) :
    verify_and_grant_from_session s u r now retr
      = ((true, .alreadyProcessed), s) := by
  unfold verify_and_grant_from_session
  simp [h1, h2]

theorem verify_ok_state (s : LedgerState) (u r now : String)
    (retr : Except String StripeSession)
    (hok : (verify_and_grant_from_session s u r now retr).1.1 = true) :
    r ≠ ""
    ∧ stripe_session_already_processed
        (verify_and_grant_from_session s u r now retr).2 r = true := by
  by_cases h0 : r = ""
  · exfalso
    unfold verify_and_grant_from_session at hok
    simp [h0] at hok
  · refine ⟨h0, ?_⟩
    unfold verify_and_grant_from_session at hok ⊢
    by_cases hp : stripe_session_already_processed s r = true
    · simp [h0, hp]
    · cases retr with
      | error e => simp [h0, hp] at hok
      | ok sess =>
        by_cases hpaid : sess.payment_status = some "paid"
        · by_cases hmis :
            truthy (pyOrStr sess.client_reference_id sess.metadata_uid) = true
            ∧ pyOrStr sess.client_reference_id sess.metadata_uid ≠ some u
          · simp [h0, hp, hpaid, hmis] at hok
          · simp only [h0, hp, hpaid, hmis, if_neg, if_false, ite_false,
              not_false_eq_true, ne_eq, not_true_eq_false, Bool.false_eq_true,
              if_true, ite_true]
            simp [h0, hp, hpaid, hmis, processed_after_mark]
        · simp [h0, hp, hpaid] at hok

/-- Claim C1: `verify_and_grant_from_session` is idempotent per session
reference: once a call with reference `r` succeeds, the session is recorded as
processed, and every subsequent call with the same `r` (any caller uid, any
retrieval outcome) returns success through the already-processed branch with
the state strictly unchanged — so no additional credits are ever granted and
`stripe_session_already_processed r` remains true. -/
theorem verify_and_grant_idempotent (s : LedgerState) (u r now u' now' : String)
    (retr retr' : Except String StripeSession)
    (hok : (verify_and_grant_from_session s u r now retr).1.1 = true) :
    stripe_session_already_processed
      (verify_and_grant_from_session s u r now retr).2 r = true
    ∧ verify_and_grant_from_session
        (verify_and_grant_from_session s u r now retr).2 u' r now' retr'
      = ((true, .alreadyProcessed),
         (verify_and_grant_from_session s u r now retr).2) := by
  obtain ⟨h1, h2⟩ := verify_ok_state s u r now retr hok
  exact ⟨h2, verify_already_processed _ u' r now' retr' h1 h2⟩

/-- Witness for C1: a fresh store, a paid session owned by the caller; the
first call succeeds, the second call with the same reference succeeds with no
state change. -/
theorem verify_and_grant_idempotent_witness :
    stripe_session_already_processed
      (verify_and_grant_from_session emptyLedger "u1" "ref-123" "t1"
        (Except.ok ⟨some "paid", some "complete", some "u1", none⟩)).2 "ref-123"
      = true
    ∧ verify_and_grant_from_session
        (verify_and_grant_from_session emptyLedger "u1" "ref-123" "t1"
          (Except.ok ⟨some "paid", some "complete", some "u1", none⟩)).2
        "u1" "ref-123" "t2" (Except.error "net down")
      = ((true, .alreadyProcessed),
         (verify_and_grant_from_session emptyLedger "u1" "ref-123" "t1"
           (Except.ok ⟨some "paid", some "complete", some "u1", none⟩)).2) :=
  verify_and_grant_idempotent emptyLedger "u1" "ref-123" "t1" "u1" "t2"
    (Except.ok ⟨some "paid", some "complete", some "u1", none⟩)
    (Except.error "net down") (by decide)

/-- Claim C10: for a not-yet-processed session whose retrieval succeeds and is
paid, but whose recorded owner uid (`client_reference_id`, falling back to the
metadata uid when the former is missing or empty) is non-empty and differs
from the calling uid, `verify_and_grant_from_session` fails with the
mismatch message and returns the state strictly unchanged (so nobody is
credited and the session is not marked processed); likewise an empty
`session_id` fails with no state change. -/
theorem verify_and_grant_guard (s : LedgerState) (u sid now : String)
    (sess : StripeSession) :
    (∀ retr : Except String StripeSession,
      sid = "" →
      verify_and_grant_from_session s u sid now retr
        = ((false, .missingSessionId), s))
    ∧ (sid ≠ "" →
       stripe_session_already_processed s sid = false →
       sess.payment_status = some "paid" →
       truthy (pyOrStr sess.client_reference_id sess.metadata_uid) = true →
       pyOrStr sess.client_reference_id sess.metadata_uid ≠ some u →
       verify_and_grant_from_session s u sid now (Except.ok sess)
         = ((false, .uidMismatch), s)) := by
  constructor
  · intro retr h0
    unfold verify_and_grant_from_session
    simp [h0]
  · intro h0 hp hpaid htr hne
    unfold verify_and_grant_from_session
    simp [h0, hp, hpaid, htr, hne]

/-- Witness for C10: a paid session owned by `"owner"` submitted by caller
`"attacker"` is rejected without any state change, and an empty session id is
rejected likewise. -/
theorem verify_and_grant_guard_witness :
    verify_and_grant_from_session emptyLedger "attacker" "" "t1"
      (Except.ok ⟨some "paid", some "complete", some "owner", none⟩)
      = ((false, .missingSessionId), emptyLedger)
    ∧ verify_and_grant_from_session emptyLedger "attacker" "cs_1" "t1"
        (Except.ok ⟨some "paid", some "complete", some "owner", none⟩)
      = ((false, .uidMismatch), emptyLedger) :=
  ⟨(verify_and_grant_guard emptyLedger "attacker" "" "t1"
      ⟨some "paid", some "complete", some "owner", none⟩).1
      (Except.ok ⟨some "paid", some "complete", some "owner", none⟩) rfl,
   (verify_and_grant_guard emptyLedger "attacker" "cs_1" "t1"
      ⟨some "paid", some "complete", some "owner", none⟩).2
      (by decide) (by decide) rfl (by decide) (by decide)⟩

theorem findRow_insertOrIgnore_preserves {κ ν : Type} [DecidableEq κ] {k' k : κ}
    {v' : ν} (v : ν) {t : Table κ ν} (h : findRow k' t = some v') :
    findRow k' (insertOrIgnore k v t) = some v' := by
  by_cases hk : k' = k
  · subst hk
    rw [insertOrIgnore_of_some v h]
    exact h
  · rw [findRow_insertOrIgnore_ne v t hk]
    exact h

theorem verify_state_cases (s : LedgerState) (u sid now : String)
    (retr : Except String StripeSession) :
    (verify_and_grant_from_session s u sid now retr).2 = s
    ∨ (verify_and_grant_from_session s u sid now retr).2
      = mark_stripe_session_processed (add_deep_credits s u now 1) sid u now := by
  unfold verify_and_grant_from_session
  by_cases h0 : sid = ""
  · left; simp [h0]
  · by_cases hp : stripe_session_already_processed s sid = true
    · left; simp [h0, hp]
    · cases retr with
      | error e => left; simp [h0, hp]
      | ok sess =>
        by_cases hpaid : sess.payment_status = some "paid"
        · by_cases hmis :
            truthy (pyOrStr sess.client_reference_id sess.metadata_uid) = true
            ∧ pyOrStr sess.client_reference_id sess.metadata_uid ≠ some u
          · left; simp [h0, hp, hpaid, hmis]
          · right; simp [h0, hp, hpaid, hmis]
        · left; simp [h0, hp, hpaid]

theorem get_deep_credits_mark (s : LedgerState) (sid u now w : String) :
    get_deep_credits (mark_stripe_session_processed s sid u now) w
      = get_deep_credits s w := rfl

/-- Claim C7: cross-identity isolation. For distinct identities `A` and `B`,
`inc_free_used`, `add_deep_credits`, `consume_deep_credit` and
`verify_and_grant_from_session` invoked with identity `A` leave every stored
value keyed by `B` unchanged: `B`'s daily usage counts on every day, `B`'s
credit balance, and every previously stored processed-session record
(in particular those crediting `B`). -/
theorem cross_identity_isolation (s : LedgerState)
    (A B d d' now sid sid' : String) (n : Int)
    (retr : Except String StripeSession) (v : String × String) (hAB : A ≠ B) :
    get_free_used (inc_free_used s A d n) B d' = get_free_used s B d'
    ∧ (inc_free_used s A d n).user_credits = s.user_credits
    ∧ (inc_free_used s A d n).stripe_sessions = s.stripe_sessions
    ∧ get_deep_credits (add_deep_credits s A now n) B = get_deep_credits s B
    ∧ (add_deep_credits s A now n).usage_daily = s.usage_daily
    ∧ (add_deep_credits s A now n).stripe_sessions = s.stripe_sessions
    ∧ get_deep_credits (consume_deep_credit s A now n).2 B = get_deep_credits s B
    ∧ (consume_deep_credit s A now n).2.usage_daily = s.usage_daily
    ∧ (consume_deep_credit s A now n).2.stripe_sessions = s.stripe_sessions
    ∧ get_deep_credits (verify_and_grant_from_session s A sid now retr).2 B
        = get_deep_credits s B
    ∧ get_free_used (verify_and_grant_from_session s A sid now retr).2 B d'
        = get_free_used s B d'
    ∧ (findRow sid' s.stripe_sessions = some v →
       findRow sid'
         ((verify_and_grant_from_session s A sid now retr).2).stripe_sessions
         = some v) := by
  have hBA : B ≠ A := Ne.symm hAB
  have hkey : (B, d') ≠ (A, d) := by
    intro h
    exact hBA (congrArg Prod.fst h)
  refine ⟨get_free_used_inc_ne s n hkey, rfl, rfl,
    get_deep_credits_add_ne s now n hBA, rfl, rfl,
    get_deep_credits_consume_ne s now n hBA, ?_, ?_, ?_, ?_, ?_⟩
  · show (if get_deep_credits s A < n then (false, s)
       else (true,
        { s with
          user_credits := updateRow A (fun x => (x.1 - n, now)) s.user_credits })).2.usage_daily
      = s.usage_daily
    by_cases hlt : get_deep_credits s A < n
    · rw [if_pos hlt]
    · rw [if_neg hlt]
  · show (if get_deep_credits s A < n then (false, s)
       else (true,
        { s with
          user_credits := updateRow A (fun x => (x.1 - n, now)) s.user_credits })).2.stripe_sessions
      = s.stripe_sessions
    by_cases hlt : get_deep_credits s A < n
    · rw [if_pos hlt]
    · rw [if_neg hlt]
  · rcases verify_state_cases s A sid now retr with hcase | hcase
    · rw [hcase]
    · rw [hcase, get_deep_credits_mark, get_deep_credits_add_ne s now 1 hBA]
  · rcases verify_state_cases s A sid now retr with hcase | hcase
    · rw [hcase]
    · rw [hcase]
      rfl
  · intro h
    rcases verify_state_cases s A sid now retr with hcase | hcase
    · rw [hcase]
      exact h
    · rw [hcase]
      show findRow sid' (insertOrIgnore sid (A, now) s.stripe_sessions) = some v
      exact findRow_insertOrIgnore_preserves (A, now) h

/-- Witness for C7 at a concrete store holding data for `"bob"`, with all four
operations invoked by `"alice"`. -/
theorem cross_identity_isolation_witness :
    get_free_used
      (inc_free_used
        (mark_stripe_session_processed
          (add_deep_credits (inc_free_used emptyLedger "bob" "2024-01-01" 1)
            "bob" "t0" 3) "cs_bob" "bob" "t0")
        "alice" "2024-01-01" 1) "bob" "2024-01-01"
      = get_free_used
          (mark_stripe_session_processed
            (add_deep_credits (inc_free_used emptyLedger "bob" "2024-01-01" 1)
              "bob" "t0" 3) "cs_bob" "bob" "t0") "bob" "2024-01-01"
    ∧ get_deep_credits
        (add_deep_credits
          (mark_stripe_session_processed
            (add_deep_credits (inc_free_used emptyLedger "bob" "2024-01-01" 1)
              "bob" "t0" 3) "cs_bob" "bob" "t0")
          "alice" "t1" 2) "bob"
      = get_deep_credits
          (mark_stripe_session_processed
            (add_deep_credits (inc_free_used emptyLedger "bob" "2024-01-01" 1)
              "bob" "t0" 3) "cs_bob" "bob" "t0") "bob"
    ∧ get_deep_credits
        (consume_deep_credit
          (mark_stripe_session_processed
            (add_deep_credits (inc_free_used emptyLedger "bob" "2024-01-01" 1)
              "bob" "t0" 3) "cs_bob" "bob" "t0")
          "alice" "t1" 2).2 "bob"
      = get_deep_credits
          (mark_stripe_session_processed
            (add_deep_credits (inc_free_used emptyLedger "bob" "2024-01-01" 1)
              "bob" "t0" 3) "cs_bob" "bob" "t0") "bob"
    ∧ (findRow "cs_bob"
        ((verify_and_grant_from_session
          (mark_stripe_session_processed
            (add_deep_credits (inc_free_used emptyLedger "bob" "2024-01-01" 1)
              "bob" "t0" 3) "cs_bob" "bob" "t0")
          "alice" "cs_alice" "t1"
          (Except.ok ⟨some "paid", none, some "alice", none⟩)).2).stripe_sessions
        = some ("bob", "t0")) :=
  ⟨(cross_identity_isolation
      (mark_stripe_session_processed
        (add_deep_credits (inc_free_used emptyLedger "bob" "2024-01-01" 1)
          "bob" "t0" 3) "cs_bob" "bob" "t0")
      "alice" "bob" "2024-01-01" "2024-01-01" "t1" "cs_alice" "cs_bob" 1
      (Except.ok ⟨some "paid", none, some "alice", none⟩) ("bob", "t0")
      (by decide)).1,
   (cross_identity_isolation
      (mark_stripe_session_processed
        (add_deep_credits (inc_free_used emptyLedger "bob" "2024-01-01" 1)
          "bob" "t0" 3) "cs_bob" "bob" "t0")
      "alice" "bob" "2024-01-01" "2024-01-01" "t1" "cs_alice" "cs_bob" 2
      (Except.ok ⟨some "paid", none, some "alice", none⟩) ("bob", "t0")
      (by decide)).2.2.2.1,
   (cross_identity_isolation
      (mark_stripe_session_processed
        (add_deep_credits (inc_free_used emptyLedger "bob" "2024-01-01" 1)
          "bob" "t0" 3) "cs_bob" "bob" "t0")
      "alice" "bob" "2024-01-01" "2024-01-01" "t1" "cs_alice" "cs_bob" 2
      (Except.ok ⟨some "paid", none, some "alice", none⟩) ("bob", "t0")
      (by decide)).2.2.2.2.2.2.1,
   (cross_identity_isolation
      (mark_stripe_session_processed
        (add_deep_credits (inc_free_used emptyLedger "bob" "2024-01-01" 1)
          "bob" "t0" 3) "cs_bob" "bob" "t0")
      "alice" "bob" "2024-01-01" "2024-01-01" "t1" "cs_alice" "cs_bob" 1
      (Except.ok ⟨some "paid", none, some "alice", none⟩) ("bob", "t0")
      (by decide)).2.2.2.2.2.2.2.2.2.2.2 (by decide)⟩

theorem applyOp_nonneg (s : LedgerState) (op : LedgerOp) (hop : grantPositive op)
    (hs : ∀ w, 0 ≤ get_deep_credits s w) :
    ∀ w, 0 ≤ get_deep_credits (applyOp s op) w := by
  intro w
  cases op with
  | grant u' now' n =>
    show 0 ≤ get_deep_credits (add_deep_credits s u' now' n) w
    by_cases hw : w = u'
    · subst hw
      rw [get_deep_credits_add_self]
      have hn : (0 : Int) < n := hop
      have hb := hs w
      omega
    · rw [get_deep_credits_add_ne s now' n hw]
      exact hs w
  | consume u' now' n =>
    show 0 ≤ get_deep_credits (consume_deep_credit s u' now' n).2 w
    by_cases hw : w = u'
    · subst hw
      exact consume_nonneg s w now' n (hs w)
    · rw [get_deep_credits_consume_ne s now' n hw]
      exact hs w
  | verify u' sid now' retr =>
    show 0 ≤ get_deep_credits (verify_and_grant_from_session s u' sid now' retr).2 w
    rcases verify_state_cases s u' sid now' retr with hcase | hcase
    · rw [hcase]
      exact hs w
    · rw [hcase, get_deep_credits_mark]
      by_cases hw : w = u'
      · subst hw
        rw [get_deep_credits_add_self]
        have hb := hs w
        omega
      · rw [get_deep_credits_add_ne s now' 1 hw]
        exact hs w

theorem runOps_nonneg :
    ∀ ops : List LedgerOp, (∀ op ∈ ops, grantPositive op) →
      ∀ s : LedgerState, (∀ w, 0 ≤ get_deep_credits s w) →
        ∀ w, 0 ≤ get_deep_credits (runOps s ops) w := by
  intro ops
  induction ops with
  | nil => intro _ s hs w; exact hs w
  | cons op rest ih =>
    intro hpos s hs w
    show 0 ≤ get_deep_credits (runOps (applyOp s op) rest) w
    exact ih (fun o ho => hpos o (List.mem_cons_of_mem _ ho)) (applyOp s op)
      (applyOp_nonneg s op (hpos op (List.mem_cons_self _ _)) hs) w

/-- Claim C8: starting from an empty store, every sequence of ledger
operations (`add_deep_credits`, `consume_deep_credit`,
`verify_and_grant_from_session`) in which every direct grant uses a positive
amount keeps every identity's stored credit balance nonnegative. -/
theorem balances_never_negative (ops : List LedgerOp)
    (hpos : ∀ op ∈ ops, grantPositive op) (u : String) :
    0 ≤ get_deep_credits (runOps emptyLedger ops) u :=
  runOps_nonneg ops hpos emptyLedger (fun _ => le_refl 0) u

/-- Witness for C8: a grant of 2, two consumes (one failing), and a payment
application leave the balance nonnegative. -/
theorem balances_never_negative_witness :
    0 ≤ get_deep_credits
      (runOps emptyLedger
        [LedgerOp.grant "a" "t0" 2, LedgerOp.consume "a" "t1" 1,
         LedgerOp.consume "a" "t2" 5,
         LedgerOp.verify "a" "cs_1" "t3"
           (Except.ok ⟨some "paid", none, some "a", none⟩)]) "a" :=
  balances_never_negative
    [LedgerOp.grant "a" "t0" 2, LedgerOp.consume "a" "t1" 1,
     LedgerOp.consume "a" "t2" 5,
     LedgerOp.verify "a" "cs_1" "t3"
       (Except.ok ⟨some "paid", none, some "a", none⟩)]
    (by
      intro op hop
      simp only [List.mem_cons, List.not_mem_nil, or_false] at hop
      rcases hop with h | h | h | h <;> subst h <;> norm_num [grantPositive])
    "a"
